import Mathlib

/-!
Shallow embedding of the computational core of `src/functions.py`
(an equal-weight portfolio return/indicator calculator) and proofs of
the specification's claims about it.

Modelling choices:
* A pandas `DataFrame` of adjusted close prices is a `PriceTable`:
  an explicit column count (`DataFrame.shape[1]`) together with the
  list of date-ordered rows, each row a list of prices.  The claims
  under consideration all assume no missing values, so cells are
  plain numbers.
* Machine floats are modelled by exact arithmetic: `ℚ` wherever the
  computation stays in the field operations, and `ℝ` for the two
  fields that need a square root (annualized volatility and the
  Sharpe ratio).  The single place where the Python code can produce
  a non-finite float that the claims care about — the Sharpe-ratio
  division — is modelled by `npDiv`, which returns an `NpVal`
  (finite real, `+inf`, `-inf` or `nan`) with numpy's
  division-by-zero semantics.
* Python's `1 / n_empresas` on the `int` `n_empresas` raises
  `ZeroDivisionError` when `n_empresas = 0`; `calcular_rentabilidad`
  therefore returns `Except PyExc (List ℚ)`.
-/

/-- Python exceptions relevant to `calcular_rentabilidad`.
`zeroDivisionError` models Python's built-in `ZeroDivisionError`
(raised by `1 / 0`).  `shapeMismatch` models the spec's abstract
"Shape-mismatch" failure from §7 of the spec; the code never produces
it, the constructor exists only so that the spec's claim about it can
be stated. -/
inductive PyExc where
  | zeroDivisionError
  | shapeMismatch
deriving DecidableEq, Repr

/-- A pandas DataFrame of prices: `ncols = shape[1]` (number of ticker
columns) and the date-ordered rows (`shape[0] = rows.length`).  Claims
assume no missing values, so every cell is a number. -/
structure PriceTable where
  ncols : ℕ
  rows : List (List ℚ)

/-- `DataFrame.pct_change().dropna()` on a table with no missing
values: row `t` is the elementwise `price[t] / price[t-1] - 1`, and
`dropna` removes exactly the first (all-NaN) row, leaving the
`rows.length - 1` rows built from consecutive pairs. -/
def pct_change (rows : List (List ℚ)) : List (List ℚ) :=
  (rows.zip rows.tail).map (fun pr => List.zipWith (fun p c => c / p - 1) pr.1 pr.2)

/-- `Series.dot(weights)`: sum of the elementwise products. -/
def dot (row weights : List ℚ) : ℚ :=
  (List.zipWith (fun x w => x * w) row weights).sum

/-- `calcular_rentabilidad` from `src/functions.py` (lines 22-40):
reads `n_empresas = precios_cierre.shape[1]`, computes the equal
weight `1 / n_empresas` (Python raises `ZeroDivisionError` when the
table has zero columns), takes `pct_change().dropna()` and dots each
daily return row with the uniform weight vector. -/
def calcular_rentabilidad (precios_cierre : PriceTable) (capital_inicial : ℚ) :
    Except PyExc (List ℚ) :=
  let n_empresas := precios_cierre.ncols
  if n_empresas = 0 then
    Except.error PyExc.zeroDivisionError
  else
    let peso_cartera : ℚ := 1 / (n_empresas : ℚ)
    let inversion_por_empresa := capital_inicial * peso_cartera
    let rentabilidad_diaria := pct_change precios_cierre.rows
    let rentabilidad_cartera :=
      rentabilidad_diaria.map (fun row => dot row (List.replicate n_empresas peso_cartera))
    let _ := inversion_por_empresa
    Except.ok rentabilidad_cartera

/-- `Series.mean()`: arithmetic mean.  (On an empty series pandas
returns NaN; here `0 / 0 = 0` — every claim about the mean assumes a
non-empty series.) -/
def mean (l : List ℚ) : ℚ := l.sum / (l.length : ℚ)

/-- `Series.var()` with pandas' default `ddof = 1`: sum of squared
deviations from the mean over `n - 1`.  (For a length-1 series pandas
returns NaN; here `0 / 0 = 0` — the claims about the variance assume
at least two entries.) -/
def svar (l : List ℚ) : ℚ :=
  (l.map (fun x => (x - mean l) ^ 2)).sum / ((l.length : ℚ) - 1)

/-- `Series.std()`: square root of the `ddof = 1` variance. -/
noncomputable def std (l : List ℚ) : ℝ := Real.sqrt ((svar l : ℚ) : ℝ)

/-- A numpy float value, distinguishing the non-finite outcomes of a
division by zero from finite results. -/
inductive NpVal where
  | finite (x : ℝ)
  | posInf
  | negInf
  | nan

/-- numpy float division: `a / 0.0` yields `+inf`, `-inf` or `nan`
according to the sign of `a` (a runtime warning, not an exception);
otherwise the finite quotient. -/
noncomputable def npDiv (a b : ℝ) : NpVal :=
  if b = 0 then
    if 0 < a then NpVal.posInf else if a < 0 then NpVal.negInf else NpVal.nan
  else NpVal.finite (a / b)

/-- `Series.cumprod()` with running accumulator `a`. -/
def cumprodFrom (a : ℚ) : List ℚ → List ℚ
  | [] => []
  | x :: xs => (a * x) :: cumprodFrom (a * x) xs

/-- `Series.cumprod()`: running products. -/
def cumprod (l : List ℚ) : List ℚ := cumprodFrom 1 l

/-- `Series.cummax()` with running accumulator `m`. -/
def cummaxFrom (m : ℚ) : List ℚ → List ℚ
  | [] => []
  | x :: xs => (max m x) :: cummaxFrom (max m x) xs

/-- `Series.cummax()`: running maxima. -/
def cummax : List ℚ → List ℚ
  | [] => []
  | x :: xs => x :: cummaxFrom x xs

/-- `Series.min()`.  (On an empty series pandas returns NaN; here `0`
— every claim about the minimum concerns a non-empty series.) -/
def listMin : List ℚ → ℚ
  | [] => 0
  | x :: xs => xs.foldl min x

/-- The five-field indicator record returned by
`calcular_indicadores` (the one-row `df_indicadores` DataFrame). -/
structure Indicadores where
  rentabilidad_anualizada : ℚ
  volatilidad_anualizada : ℝ
  ratio_de_sharpe : NpVal
  retorno_acumulado : ℚ
  maximo_drawdown : ℚ

/-- `calcular_indicadores` from `src/functions.py` (lines 43-80):
annualized return `(1 + mean) ** dias_trading - 1`, annualized
volatility `std() * sqrt(dias_trading)`, Sharpe ratio
`(rentabilidad_anualizada - rendimiento_sin_riesgo) / volatilidad_anualizada`
by numpy float division, cumulative return `prod(1 + r) - 1`, and
maximum drawdown via cumprod / cummax / min. -/
noncomputable def calcular_indicadores (rentabilidad_cartera : List ℚ)
    (dias_trading : ℕ) (rendimiento_sin_riesgo : ℚ) : Indicadores :=
  let rentabilidad_anualizada := (1 + mean rentabilidad_cartera) ^ dias_trading - 1
  let volatilidad_anualizada := std rentabilidad_cartera * Real.sqrt (dias_trading : ℝ)
  let sharpe_ratio :=
    npDiv (((rentabilidad_anualizada : ℚ) : ℝ) - ((rendimiento_sin_riesgo : ℚ) : ℝ))
      volatilidad_anualizada
  let retorno_acumulado := (rentabilidad_cartera.map (fun x => x + 1)).prod - 1
  let wealth_index := cumprod (rentabilidad_cartera.map (fun x => 1 + x))
  let previous_peaks := cummax wealth_index
  let drawdown := List.zipWith (fun w p => (w - p) / p) wealth_index previous_peaks
  let max_drawdown := listMin drawdown
  ⟨rentabilidad_anualizada, volatilidad_anualizada, sharpe_ratio, retorno_acumulado, max_drawdown⟩

/-! ### Helper lemmas -/

lemma calcular_rentabilidad_ok (t : PriceTable) (c : ℚ) (h : t.ncols ≠ 0) :
    calcular_rentabilidad t c =
      Except.ok ((pct_change t.rows).map
        (fun row => dot row (List.replicate t.ncols (1 / (t.ncols : ℚ))))) := by
  simp [calcular_rentabilidad, h]

lemma pct_change_length (rows : List (List ℚ)) :
    (pct_change rows).length = rows.length - 1 := by
  simp [pct_change]

lemma pct_change_row_length (rows : List (List ℚ)) (M : ℕ)
    (h : ∀ r ∈ rows, r.length = M) :
    ∀ r ∈ pct_change rows, r.length = M := by
  intro r hr
  simp only [pct_change, List.mem_map] at hr
  obtain ⟨pr, hpr, rfl⟩ := hr
  obtain ⟨h1, h2⟩ := List.of_mem_zip hpr
  rw [List.length_zipWith, h pr.1 h1, h pr.2 (List.mem_of_mem_tail h2), min_self]

lemma dot_replicate (row : List ℚ) (w : ℚ) :
    ∀ n, row.length = n → dot row (List.replicate n w) = row.sum * w := by
  induction row with
  | nil => intro n h; simp [dot]
  | cons x xs ih =>
    intro n h
    cases n with
    | zero => simp at h
    | succ m =>
      simp only [List.replicate_succ, dot, List.zipWith_cons_cons, List.sum_cons, List.sum_cons]
      have := ih m (by simpa using h)
      simp only [dot] at this
      rw [this]
      ring

/-! ### C2: portfolio return is the mean of the per-asset returns -/

/-- C2: for every price table with `M ≥ 1` ticker columns and no
missing values, the series produced by `calcular_rentabilidad` is the
pointwise arithmetic mean of the per-asset simple returns
`price[t] / price[t-1] - 1`; and for a one-ticker table it is that
ticker's own return series. -/
theorem C2_portfolio_return_is_mean (t : PriceTable) (c : ℚ)
    (hM : 1 ≤ t.ncols) (hrow : ∀ r ∈ t.rows, r.length = t.ncols)
    (hpos : ∀ r ∈ t.rows, ∀ p ∈ r, 0 < p) :
    calcular_rentabilidad t c = Except.ok ((pct_change t.rows).map mean) ∧
      (t.ncols = 1 →
        calcular_rentabilidad t c = Except.ok ((pct_change t.rows).map List.headI)) := by
  have hret := pct_change_row_length t.rows t.ncols hrow
  have hmain : calcular_rentabilidad t c = Except.ok ((pct_change t.rows).map mean) := by
    rw [calcular_rentabilidad_ok t c (by omega)]
    congr 1
    apply List.map_congr_left
    intro r hr
    rw [dot_replicate r _ t.ncols (hret r hr), mean, hret r hr]
    ring
  refine ⟨hmain, fun h1 => ?_⟩
  rw [hmain]
  congr 1
  apply List.map_congr_left
  intro r hr
  have hlen : r.length = 1 := by rw [hret r hr, h1]
  obtain ⟨x, rfl⟩ := List.length_eq_one.mp hlen
  rw [mean]
  simp

theorem C2_portfolio_return_is_mean_witness :
    calcular_rentabilidad ⟨2, [[100, 50], [102, 49], [101, 50]]⟩ 100000 =
        Except.ok ((pct_change [[100, 50], [102, 49], [101, 50]]).map mean) ∧
      ((2 : ℕ) = 1 →
        calcular_rentabilidad ⟨2, [[100, 50], [102, 49], [101, 50]]⟩ 100000 =
          Except.ok ((pct_change [[100, 50], [102, 49], [101, 50]]).map List.headI)) := by
  refine C2_portfolio_return_is_mean ⟨2, [[(100 : ℚ), 50], [102, 49], [101, 50]]⟩ 100000
    (by decide) ?_ ?_
  · intro r hr
    simp at hr
    rcases hr with h | h | h <;> simp [h]
  · intro r hr p hp
    simp at hr
    rcases hr with h | h | h <;> subst h <;> simp at hp <;> rcases hp with h | h <;> norm_num [h]

/-! ### C4: degenerate input (fewer than two rows) -/

/-- C4 counterexample: on a one-row, one-column table the code does
NOT fail — it returns the empty return series. -/
theorem C4_counterexample :
    calcular_rentabilidad ⟨1, [[100]]⟩ 100000 = Except.ok [] := by rfl

/-- C4 (amended): for every price table with at least one column and
at most one row, `calcular_rentabilidad` returns the empty return
series (no Degenerate-input error is raised). -/
theorem C4_degenerate_returns_empty (t : PriceTable) (c : ℚ)
    (h1 : 1 ≤ t.ncols) (h2 : t.rows.length ≤ 1) :
    calcular_rentabilidad t c = Except.ok [] := by
  obtain ⟨M, rows⟩ := t
  rw [calcular_rentabilidad_ok ⟨M, rows⟩ c (by simp at h1 ⊢; omega)]
  have hnil : pct_change rows = [] := by
    simp only at h2
    rcases rows with _ | ⟨a, _ | ⟨b, tl⟩⟩
    · rfl
    · rfl
    · simp at h2
  simp only at hnil ⊢
  rw [hnil]
  rfl

theorem C4_degenerate_returns_empty_witness :
    calcular_rentabilidad ⟨1, [[100]]⟩ 50000 = Except.ok [] :=
  C4_degenerate_returns_empty ⟨1, [[100]]⟩ 50000 (by decide) (by decide)

/-! ### C5: zero-column table -/

/-- C5 counterexample: on a zero-column table the code fails with the
`ZeroDivisionError` raised by evaluating `1 / n_empresas` itself, not
with a Shape-mismatch rejection issued before the division. -/
theorem C5_counterexample :
    calcular_rentabilidad ⟨0, []⟩ 100000 = Except.error PyExc.zeroDivisionError ∧
      calcular_rentabilidad ⟨0, []⟩ 100000 ≠ Except.error PyExc.shapeMismatch := by
  exact ⟨rfl, by simp [calcular_rentabilidad]⟩

/-- C5 (amended): for every price table with zero columns,
`calcular_rentabilidad` fails with the `ZeroDivisionError` raised by
the equal-weight division `1 / n_empresas`; there is no prior shape
check. -/
theorem C5_zero_columns_division_error (t : PriceTable) (c : ℚ)
    (h : t.ncols = 0) :
    calcular_rentabilidad t c = Except.error PyExc.zeroDivisionError := by
  simp [calcular_rentabilidad, h]

theorem C5_zero_columns_division_error_witness :
    calcular_rentabilidad ⟨0, [[], []]⟩ 100000 = Except.error PyExc.zeroDivisionError :=
  C5_zero_columns_division_error ⟨0, [[], []]⟩ 100000 (by decide)

/-! ### C3: the return series has exactly N - 1 entries -/

/-- C3: for every price table with `N ≥ 2` time-ordered rows, `M ≥ 1`
columns and no missing values, `calcular_rentabilidad` succeeds and
the return series it produces has exactly `N - 1` entries. -/
theorem C3_return_series_length (t : PriceTable) (c : ℚ)
    (hM : 1 ≤ t.ncols) (hrow : ∀ r ∈ t.rows, r.length = t.ncols)
    (hpos : ∀ r ∈ t.rows, ∀ p ∈ r, 0 < p) (hN : 2 ≤ t.rows.length) :
    ∃ l, calcular_rentabilidad t c = Except.ok l ∧ l.length = t.rows.length - 1 := by
  refine ⟨_, calcular_rentabilidad_ok t c (by omega), ?_⟩
  simp [pct_change_length]

theorem C3_return_series_length_witness :
    ∃ l, calcular_rentabilidad ⟨1, [[100], [102], [101]]⟩ 100000 = Except.ok l ∧
      l.length = ([[100], [102], [101]] : List (List ℚ)).length - 1 := by
  refine C3_return_series_length ⟨1, [[(100 : ℚ)], [102], [101]]⟩ 100000 (by decide) ?_ ?_ (by decide)
  · intro r hr
    simp at hr
    rcases hr with h | h | h <;> simp [h]
  · intro r hr p hp
    simp at hr
    rcases hr with h | h | h <;> subst h <;> simp at hp <;> norm_num [hp]

lemma indicadores_rentabilidad (r : List ℚ) (d : ℕ) (rf : ℚ) :
    (calcular_indicadores r d rf).rentabilidad_anualizada = (1 + mean r) ^ d - 1 := rfl

lemma indicadores_volatilidad (r : List ℚ) (d : ℕ) (rf : ℚ) :
    (calcular_indicadores r d rf).volatilidad_anualizada = std r * Real.sqrt (d : ℝ) := rfl

lemma indicadores_sharpe (r : List ℚ) (d : ℕ) (rf : ℚ) :
    (calcular_indicadores r d rf).ratio_de_sharpe =
      npDiv ((((1 + mean r) ^ d - 1 : ℚ) : ℝ) - ((rf : ℚ) : ℝ)) (std r * Real.sqrt (d : ℝ)) := rfl

lemma indicadores_retorno (r : List ℚ) (d : ℕ) (rf : ℚ) :
    (calcular_indicadores r d rf).retorno_acumulado = (r.map (fun x => x + 1)).prod - 1 := rfl

lemma indicadores_drawdown (r : List ℚ) (d : ℕ) (rf : ℚ) :
    (calcular_indicadores r d rf).maximo_drawdown =
      listMin (List.zipWith (fun w p => (w - p) / p)
        (cumprod (r.map (fun x => 1 + x)))
        (cummax (cumprod (r.map (fun x => 1 + x))))) := rfl

/-! ### C6: annualized return formula -/

/-- C6: for every non-empty return series and every periods-per-year
value, the annualized-return field of `calcular_indicadores` equals
`(1 + mean of the daily returns) ^ periods_per_year - 1`, built from
the arithmetic mean `sum / length`, not from the cumulative product. -/
theorem C6_annualized_return_formula (r : List ℚ) (hne : r ≠ [])
    (dias : ℕ) (rf : ℚ) :
    (calcular_indicadores r dias rf).rentabilidad_anualizada =
      (1 + r.sum / (r.length : ℚ)) ^ dias - 1 := by
  rw [indicadores_rentabilidad, mean]

theorem C6_annualized_return_formula_witness :
    (calcular_indicadores [1/10] 252 (1/100)).rentabilidad_anualizada =
      (1 + ([(1 : ℚ)/10] : List ℚ).sum / (([(1 : ℚ)/10] : List ℚ).length : ℚ)) ^ 252 - 1 :=
  C6_annualized_return_formula [1/10] (by decide) 252 (1/100)

/-! ### C8: all-zero returns give zero cumulative and annualized return -/

/-- C8: for every non-empty return series whose entries are all zero,
the record produced by `calcular_indicadores` has cumulative return 0
and annualized return 0. -/
theorem C8_all_zero_returns (r : List ℚ) (hne : r ≠ [])
    (hz : ∀ x ∈ r, x = 0) (dias : ℕ) (rf : ℚ) :
    (calcular_indicadores r dias rf).retorno_acumulado = 0 ∧
      (calcular_indicadores r dias rf).rentabilidad_anualizada = 0 := by
  have hsum : r.sum = 0 := List.sum_eq_zero hz
  have hprod : (r.map (fun x => x + 1)).prod = 1 := by
    apply List.prod_eq_one
    intro y hy
    simp only [List.mem_map] at hy
    obtain ⟨x, hx, rfl⟩ := hy
    rw [hz x hx, zero_add]
  rw [indicadores_retorno, indicadores_rentabilidad, mean, hsum, hprod]
  norm_num

theorem C8_all_zero_returns_witness :
    (calcular_indicadores [0, 0] 252 (1/100)).retorno_acumulado = 0 ∧
      (calcular_indicadores [0, 0] 252 (1/100)).rentabilidad_anualizada = 0 :=
  C8_all_zero_returns [0, 0] (by decide) (by decide) 252 (1/100)

/-! ### C9: annualized volatility uses the sample standard deviation -/

/-- The specification's formula, in its own words: the sample standard
deviation of the daily returns — square root of the sum of squared
deviations from the mean divided by `n - 1` — is the documented
choice.  Stated separately from `std`/`svar` so that C9 compares the
implementation against the spec's formula. -/
noncomputable def sample_stddev (l : List ℚ) : ℝ :=
  Real.sqrt (((l.map (fun x => (x - l.sum / (l.length : ℚ)) ^ 2)).sum / ((l.length : ℚ) - 1) : ℚ))

/-- C9: for every return series with at least two entries, the
annualized-volatility field of `calcular_indicadores` equals the
sample standard deviation (denominator `n - 1`) of the daily returns
multiplied by the square root of the periods-per-year value. -/
theorem C9_volatility_is_sample_std (r : List ℚ) (h2 : 2 ≤ r.length)
    (dias : ℕ) (rf : ℚ) :
    (calcular_indicadores r dias rf).volatilidad_anualizada =
      sample_stddev r * Real.sqrt (dias : ℝ) := by
  rw [indicadores_volatilidad, std, svar, mean, sample_stddev]

theorem C9_volatility_is_sample_std_witness :
    (calcular_indicadores [0, 1/10] 252 (1/100)).volatilidad_anualizada =
      sample_stddev [0, 1/10] * Real.sqrt ((252 : ℕ) : ℝ) :=
  C9_volatility_is_sample_std [0, 1/10] (by decide) 252 (1/100)

/-! ### C1: Sharpe ratio on a zero-volatility series -/

lemma npDiv_zero_ne_finite (a : ℝ) (y : ℝ) : npDiv a 0 ≠ NpVal.finite y := by
  rw [npDiv, if_pos rfl]
  split_ifs <;> simp

/-- C1 counterexample: on the constant (zero-volatility) series
`[0, 0]` the code does NOT raise — `calcular_indicadores` returns a
record whose Sharpe-ratio field is numpy's `-inf`. -/
theorem C1_counterexample :
    (calcular_indicadores [0, 0] 252 (1/100)).ratio_de_sharpe = NpVal.negInf := by
  rw [indicadores_sharpe]
  have hvar : svar [0, 0] = 0 := by norm_num [svar, mean]
  have hstd : std [0, 0] = 0 := by rw [std, hvar]; simp
  have hmean : mean [(0 : ℚ), 0] = 0 := by norm_num [mean]
  rw [hstd, hmean, zero_mul, npDiv, if_pos rfl]
  norm_num

/-- C1 (amended): for every constant return series of length at least
two, `calcular_indicadores` returns a record whose annualized
volatility is 0 and whose Sharpe-ratio field is a non-finite numpy
value (`+inf`, `-inf` or `nan`); no Zero-volatility error is
raised. -/
theorem C1_constant_series_nonfinite_sharpe (r : List ℚ) (c : ℚ)
    (h2 : 2 ≤ r.length) (hc : ∀ x ∈ r, x = c) (dias : ℕ) (rf : ℚ) :
    (calcular_indicadores r dias rf).volatilidad_anualizada = 0 ∧
      ∀ y : ℝ, (calcular_indicadores r dias rf).ratio_de_sharpe ≠ NpVal.finite y := by
  have hlen : (r.length : ℚ) ≠ 0 := by
    have h : r.length ≠ 0 := by omega
    exact_mod_cast h
  have hmean : mean r = c := by
    rw [mean, List.sum_eq_card_nsmul r c hc, nsmul_eq_mul, mul_div_cancel_left₀ _ hlen]
  have hvar : svar r = 0 := by
    rw [svar]
    have hs : (r.map (fun x => (x - mean r) ^ 2)).sum = 0 := by
      apply List.sum_eq_zero
      intro y hy
      simp only [List.mem_map] at hy
      obtain ⟨x, hx, rfl⟩ := hy
      rw [hc x hx, hmean, sub_self]
      ring
    rw [hs, zero_div]
  have hstd : std r = 0 := by rw [std, hvar]; simp
  refine ⟨?_, ?_⟩
  · rw [indicadores_volatilidad, hstd, zero_mul]
  · intro y
    rw [indicadores_sharpe, hstd, zero_mul]
    exact npDiv_zero_ne_finite _ y

theorem C1_constant_series_nonfinite_sharpe_witness :
    (calcular_indicadores [1/100, 1/100] 252 (1/100)).volatilidad_anualizada = 0 ∧
      ∀ y : ℝ, (calcular_indicadores [1/100, 1/100] 252 (1/100)).ratio_de_sharpe ≠ NpVal.finite y :=
  C1_constant_series_nonfinite_sharpe [1/100, 1/100] (1/100) (by decide)
    (by norm_num [List.forall_mem_cons]) 252 (1/100)

/-! ### C7: maximum drawdown is nonpositive -/

lemma foldl_min_le_init (l : List ℚ) : ∀ a : ℚ, l.foldl min a ≤ a := by
  induction l with
  | nil => intro a; simp
  | cons x xs ih =>
    intro a
    calc (x :: xs).foldl min a = xs.foldl min (min a x) := rfl
    _ ≤ min a x := ih (min a x)
    _ ≤ a := min_le_left a x

lemma foldl_min_zeros : ∀ l : List ℚ, (∀ x ∈ l, x = 0) → l.foldl min 0 = 0
  | [], _ => rfl
  | x :: xs, h => by
    have hx : x = 0 := h x (List.mem_cons_self x xs)
    have hxs := foldl_min_zeros xs (fun z hz => h z (List.mem_cons_of_mem x hz))
    simp [hx, hxs]

lemma zipWith_self_fun (f : ℚ → ℚ → ℚ) : ∀ l : List ℚ, List.zipWith f l l = l.map (fun x => f x x)
  | [] => rfl
  | x :: xs => by simp [List.zipWith_cons_cons, zipWith_self_fun f xs]

lemma listMin_zip_self_zero (W : List ℚ) (hW : W ≠ []) :
    listMin (List.zipWith (fun w p => (w - p) / p) W W) = 0 := by
  rcases W with _ | ⟨a, l⟩
  · exact absurd rfl hW
  · rw [zipWith_self_fun]
    simp only [sub_self, zero_div, List.map_cons, listMin]
    apply foldl_min_zeros
    intro x hx
    simp only [List.mem_map] at hx
    obtain ⟨z, hz, rfl⟩ := hx
    rfl

lemma cummaxFrom_cumprodFrom : ∀ (l : List ℚ) (a : ℚ), 0 < a → (∀ x ∈ l, 1 ≤ x) →
    cummaxFrom a (cumprodFrom a l) = cumprodFrom a l
  | [], _, _, _ => rfl
  | x :: xs, a, ha, h => by
    have hx : 1 ≤ x := h x (List.mem_cons_self x xs)
    have hax : a ≤ a * x := le_mul_of_one_le_right ha.le hx
    have hax0 : 0 < a * x := mul_pos ha (lt_of_lt_of_le zero_lt_one hx)
    simp only [cumprodFrom, cummaxFrom, max_eq_right hax]
    rw [cummaxFrom_cumprodFrom xs (a * x) hax0 (fun z hz => h z (List.mem_cons_of_mem x hz))]

lemma cummax_cumprod_of_one_le (l : List ℚ) (h : ∀ x ∈ l, 1 ≤ x) :
    cummax (cumprod l) = cumprod l := by
  rcases l with _ | ⟨x, xs⟩
  · rfl
  · have hx : 1 ≤ x := h x (List.mem_cons_self x xs)
    have hx0 : 0 < 1 * x := by rw [one_mul]; exact lt_of_lt_of_le zero_lt_one hx
    simp only [cumprod, cumprodFrom, cummax]
    rw [cummaxFrom_cumprodFrom xs (1 * x) hx0 (fun z hz => h z (List.mem_cons_of_mem x hz))]

/-- C7: for every non-empty return series with entries above `-1`, the
maximum-drawdown field of `calcular_indicadores` is nonpositive, and
it is exactly 0 whenever every daily return is non-negative. -/
theorem C7_max_drawdown_nonpos (r : List ℚ) (hne : r ≠ [])
    (hgt : ∀ x ∈ r, -1 < x) (dias : ℕ) (rf : ℚ) :
    (calcular_indicadores r dias rf).maximo_drawdown ≤ 0 ∧
      ((∀ x ∈ r, 0 ≤ x) → (calcular_indicadores r dias rf).maximo_drawdown = 0) := by
  obtain ⟨y, ys, rfl⟩ : ∃ y ys, r = y :: ys := by
    rcases r with _ | ⟨y, ys⟩
    · exact absurd rfl hne
    · exact ⟨y, ys, rfl⟩
  constructor
  · rw [indicadores_drawdown]
    simp only [List.map_cons, cumprod, cumprodFrom, cummax, List.zipWith_cons_cons, listMin,
      sub_self, zero_div]
    exact foldl_min_le_init _ 0
  · intro hge
    rw [indicadores_drawdown]
    have h1le : ∀ w ∈ (y :: ys).map (fun x => 1 + x), 1 ≤ w := by
      intro w hw
      simp only [List.mem_map] at hw
      obtain ⟨x, hx, rfl⟩ := hw
      have := hge x hx
      linarith
    rw [cummax_cumprod_of_one_le _ h1le]
    apply listMin_zip_self_zero
    simp [cumprod, cumprodFrom]

theorem C7_max_drawdown_nonpos_witness :
    (calcular_indicadores [0, 1/10] 252 (1/100)).maximo_drawdown ≤ 0 ∧
      ((∀ x ∈ ([0, 1/10] : List ℚ), 0 ≤ x) →
        (calcular_indicadores [0, 1/10] 252 (1/100)).maximo_drawdown = 0) :=
  C7_max_drawdown_nonpos [0, 1/10] (by decide)
    (by norm_num [List.forall_mem_cons]) 252 (1/100)

/-! ### C10: capital_inicial has no effect on the output -/

/-- C10: for every price table with at least one column and any two
initial-capital values, `calcular_rentabilidad` returns the same
return series — the `capital_inicial` argument never influences the
output. -/
theorem C10_capital_inicial_irrelevant (t : PriceTable) (c1 c2 : ℚ)
    (h : 1 ≤ t.ncols) :
    calcular_rentabilidad t c1 = calcular_rentabilidad t c2 := rfl

theorem C10_capital_inicial_irrelevant_witness :
    calcular_rentabilidad ⟨1, [[100], [102]]⟩ 100000 =
      calcular_rentabilidad ⟨1, [[100], [102]]⟩ 1 :=
  C10_capital_inicial_irrelevant ⟨1, [[100], [102]]⟩ 100000 1 (by decide)
